import Mathlib

/-
Shallow embedding of the claim-submission and car-verification flows of the
Insurance_hackathon frontend.

Sources embedded:
- src/frontend/src/pages/NewClaim.js          (validateImages, handleSubmit)
- src/unnamed/part_004  (ImageUpload component: imageCategories, useDropzone.onDrop,
                         removeFile, updateFileCategory, getCategoryStats,
                         getMissingCategories)
- src/unnamed/part_005  (CarVerification component: fetchVerificationStatus,
                         handleFileUpload, overallProgress, badges)

JavaScript strings are Lean String, JS numbers that are integral counts are Nat,
the fractional progress arithmetic is ℚ with Math.round modelled by round.
Side effects (network calls, toast messages, navigation, setState) are made
explicit as fields of result records or as state transitions.
-/

namespace Insurance

/-! ## Data model: dropped and staged files (part_004, lines 318-371) -/

/-- An input file as delivered by the browser to the dropzone: name, byte size
and MIME type are the fields the component reads. -/
structure DroppedFile where
  name : String
  size : Nat
  type : String
deriving DecidableEq, Repr

/-- One entry of the imageCategories array (part_004 lines 334-339); icon and
color are presentational strings carried along verbatim. -/
structure ImageCategory where
  value : String
  label : String
  icon : String
  color : String
deriving DecidableEq, Repr

/-- The imageCategories array of the ImageUpload component (part_004 lines
334-339): the four fixed category values front, rear, back, top. -/
def imageCategories : List ImageCategory :=
  [ ⟨"front", "Front View", "bi-arrow-up-circle", "primary"⟩,
    ⟨"rear", "Rear View", "bi-arrow-down-circle", "success"⟩,
    ⟨"back", "Back View", "bi-arrow-left-circle", "warning"⟩,
    ⟨"top", "Top View", "bi-circle", "info"⟩ ]

/-- The list of category value strings, i.e. the fixed enum of StagedFile
categories. -/
def categoryValues : List String :=
  imageCategories.map (fun c => c.value)

/-- The fileObject built in onDrop (part_004 lines 349-363): the underlying
file, a preview object URL, copies of name, size and MIME type, a status
string, a client-generated local id, the category and its display label. -/
structure StagedFile where
  file : DroppedFile
  preview : String
  name : String
  size : Nat
  type : String
  status : String
  id : String
  category : String
  categoryLabel : Option String
deriving DecidableEq, Repr

/-! ## Upload queue manager (part_004)

The component state is the files array plus, for the resource model of
section 5 of the spec, the set of object URLs allocated by
URL.createObjectURL and not yet revoked.  The source never calls
URL.revokeObjectURL on a preview, so no operation removes an entry from
allocatedPreviews.  Fresh object URLs and the Math.random local ids are
modelled as tokens drawn from a counter. -/

/-- Object URL returned by the n-th call to URL.createObjectURL. -/
def mkPreview (n : Nat) : String := "blob:" ++ toString n

/-- Local id generated for the n-th staged file (Math.random().toString(36)
in the source, modelled as a fresh token). -/
def mkLocalId (n : Nat) : String := "id" ++ toString n

/-- State of the ImageUpload component together with the allocation state of
preview object URLs. -/
structure UploadState where
  files : List StagedFile
  allocatedPreviews : List String
  nextHandle : Nat
deriving DecidableEq, Repr

/-- Initial state: empty queue, nothing allocated. -/
def initialState : UploadState := ⟨[], [], 0⟩

/-- Builds the fileObject list of onDrop (part_004 lines 349-363), one staged
file per accepted file, allocating one preview handle each, all tagged with
the currently selected category. -/
def stageFiles (selectedCategory : String) (n : Nat) :
    List DroppedFile → List StagedFile
  | [] => []
  | d :: ds =>
      { file := d,
        preview := mkPreview n,
        name := d.name,
        size := d.size,
        type := d.type,
        status := "ready",
        id := mkLocalId n,
        category := selectedCategory,
        categoryLabel :=
          (imageCategories.find? (fun cat => cat.value == selectedCategory)).map
            (fun cat => cat.label) } :: stageFiles selectedCategory (n + 1) ds

/-- The onDrop callback (part_004 lines 347-370): maps the accepted files to
staged file objects (allocating a preview object URL per file) and appends
them to the existing queue.  Nothing is revoked. -/
def onDrop (st : UploadState) (selectedCategory : String)
    (accepted : List DroppedFile) : UploadState :=
  let newFiles := stageFiles selectedCategory st.nextHandle accepted
  { files := st.files ++ newFiles,
    allocatedPreviews := st.allocatedPreviews ++ newFiles.map (fun f => f.preview),
    nextHandle := st.nextHandle + accepted.length }

/-- removeFile (part_004 lines 373-375): filters the queue by index.  The
source contains no URL.revokeObjectURL call here, so the allocation state is
unchanged. -/
def removeFile (st : UploadState) (index : Nat) : UploadState :=
  { st with files := (st.files.enum.filter (fun p => p.1 ≠ index)).map (fun p => p.2) }

/-- updateFileCategory (part_004 lines 377-387): rewrites the category and
categoryLabel of the file at the given index, leaving the others alone. -/
def updateFileCategory (st : UploadState) (index : Nat) (newCategory : String) :
    UploadState :=
  { st with files := st.files.enum.map (fun p =>
      if p.1 = index then
        { p.2 with
          category := newCategory,
          categoryLabel :=
            (imageCategories.find? (fun cat => cat.value == newCategory)).map
              (fun cat => cat.label) }
      else p.2) }

/-- JS object property read on an insertion-ordered object represented as an
association list. -/
def jsGet : List (String × Nat) → String → Option Nat
  | [], _ => none
  | (k, v) :: rest, key => if k = key then some v else jsGet rest key

/-- getCategoryStats (part_004 lines 389-395): reduce over imageCategories
building an object mapping each category value to the number of staged files
bearing it. -/
def getCategoryStats (files : List StagedFile) : List (String × Nat) :=
  imageCategories.foldl
    (fun acc cat =>
      acc ++ [(cat.value, (files.filter (fun f => f.category == cat.value)).length)])
    []

/-- getMissingCategories (part_004 lines 397-400): the categories whose stats
entry is exactly 0. -/
def getMissingCategories (files : List StagedFile) : List ImageCategory :=
  imageCategories.filter (fun cat => jsGet (getCategoryStats files) cat.value == some 0)

/-! ## Dropzone acceptance and the event model

The useDropzone configuration (part_004 lines 341-346) accepts only
image/* MIME types and at most maxFiles files; react-dropzone applies both
limits to each drop event (it has no access to the files prop), delivering
only the accepted files of that event to onDrop.  NewClaim.js line 165
passes maxFiles = 12. -/

/-- Whether a MIME type matches the accept pattern image/* of the dropzone
configuration: the type starts with the six characters image/. -/
def isImageType (t : String) : Bool := t.data.take 6 == "image/".data

/-- The guarantee the configured dropzone gives about the accepted files of a
single drop event: all are images and the count of this event is at most
maxFiles. -/
def dropzoneAccepts (maxFiles : Nat) (accepted : List DroppedFile) : Bool :=
  accepted.all (fun f => isImageType f.type) && accepted.length ≤ maxFiles

/-- The user-driven operations on the upload queue. -/
inductive UploadEvent where
  | drop (selectedCategory : String) (accepted : List DroppedFile)
  | remove (index : Nat)
  | setCategory (index : Nat) (newCategory : String)
deriving DecidableEq, Repr

/-- One UI event applied to the component state. -/
def stepUpload (st : UploadState) : UploadEvent → UploadState
  | .drop c accepted => onDrop st c accepted
  | .remove i => removeFile st i
  | .setCategory i c => updateFileCategory st i c

/-- Runs a sequence of queue operations from the initial state. -/
def runUpload (events : List UploadEvent) : UploadState :=
  events.foldl stepUpload initialState

/-- Dropzone-side acceptance for a whole event: drops carry only accepted
files, other events are unconstrained. -/
def dropOk (maxFiles : Nat) : UploadEvent → Bool
  | .drop _ accepted => dropzoneAccepts maxFiles accepted
  | _ => true

/-- Category discipline of the UI: the selected category of a drop comes from
the radio group over imageCategories (part_004 lines 479-505, initial value
front) and the category of a recategorization comes from the select whose
options are imageCategories (part_004 lines 657-669). -/
def eventCategoriesOk : UploadEvent → Bool
  | .drop c _ => categoryValues.contains c
  | .setCategory _ c => categoryValues.contains c
  | .remove _ => true

/-! ## New-claim submission (src/frontend/src/pages/NewClaim.js) -/

/-- The requiredCategories list of validateImages (NewClaim.js line 35). -/
def requiredCategories : List String := ["front", "rear", "back", "top"]

/-- The Set of categories present among the staged files
(NewClaim.js line 36); only membership is ever consumed. -/
def uploadedCategories (files : List StagedFile) : List String :=
  (files.map (fun f => f.category)).dedup

/-- The missingCategories computation of validateImages (NewClaim.js line 37):
required categories not present among the staged files. -/
def missingCategories (files : List StagedFile) : List String :=
  requiredCategories.filter (fun cat => !((uploadedCategories files).contains cat))

/-- JS string capitalization cat.charAt(0).toUpperCase() + cat.slice(1)
(NewClaim.js line 41). -/
def capitalizeWord (s : String) : String :=
  match s.data with
  | [] => ""
  | c :: cs => String.mk (Char.toUpper c :: cs)

/-- validateImages (NewClaim.js lines 29-46): some error message when the
queue is empty or a required category is missing, none otherwise. -/
def validateImages (files : List StagedFile) : Option String :=
  if files.length = 0 then
    some "Please upload at least one image"
  else
    let missing := missingCategories files
    if missing.length > 0 then
      some ("Missing required vehicle images: " ++
        String.intercalate ", " (missing.map capitalizeWord))
    else
      none

/-- The form fields appended to the multipart body (NewClaim.js lines 60-64). -/
structure FormFields where
  policy_number : String
  accident_date : String
  location : String
  description : String
deriving DecidableEq, Repr

/-- Outcome of the POST /claims call as seen by the catch handler: success
with the created claim id, or failure carrying the optional detail field of
the error payload. -/
inductive ServerResponse where
  | ok (claimId : Nat)
  | err (detail : Option String)
deriving DecidableEq, Repr

/-- JS a || b on strings: the empty string is falsy. -/
def jsOr : Option String → String → String
  | some s, fallback => if s = "" then fallback else s
  | none, fallback => fallback

/-- Observable outcome of one handleSubmit run: whether the POST /claims call
was issued, what was sent, the error surfaced to the user, the navigation
target, and the files state afterwards. -/
structure SubmitResult where
  networkCalled : Bool
  sentFields : Option FormFields
  sentImages : List StagedFile
  errorMsg : Option String
  navigatedTo : Option Nat
  filesAfter : List StagedFile
deriving DecidableEq, Repr

/-- handleSubmit (NewClaim.js lines 48-86): validation failure short-circuits
before the network call; otherwise the form fields and every staged file are
sent, and on failure the detail of the error payload (or the fallback text)
is set as the error and shown.  setFiles is never called, so the queue is
returned unchanged. -/
def handleSubmit (fd : FormFields) (files : List StagedFile)
    (resp : ServerResponse) : SubmitResult :=
  match validateImages files with
  | some msg =>
      { networkCalled := false, sentFields := none, sentImages := [],
        errorMsg := some msg, navigatedTo := none, filesAfter := files }
  | none =>
      match resp with
      | .ok claimId =>
          { networkCalled := true, sentFields := some fd, sentImages := files,
            errorMsg := none, navigatedTo := some claimId, filesAfter := files }
      | .err detail =>
          { networkCalled := true, sentFields := some fd, sentImages := files,
            errorMsg := some (jsOr detail "Failed to submit claim"),
            navigatedTo := none, filesAfter := files }

/-! ## Car verification (src/unnamed/part_005) -/

/-- One per-angle record of the verification status payload as the component
reads it (part_005 lines 131-134, 142, 164). -/
structure AngleRecord where
  uploaded : Bool
  verified : Bool
  score : ℚ
  uploaded_at : Option String
deriving DecidableEq, Repr

/-- The GET /api/car-verification/status payload as consumed by the component
(part_005 lines 87-88, 102, 115, 131). -/
structure VerificationStatus where
  verified_angles : Nat
  total_angles : Nat
  threshold : Option ℚ
  status : String
  angles : List (String × AngleRecord)
deriving DecidableEq, Repr

/-- overallProgress (part_005 lines 87-89) for a present verificationStatus:
Math.round((verified_angles / total_angles) * 100).  For nonnegative x,
Math.round x = floor (x + 1/2), and floor (100v/t + 1/2) is the integer
division (200v + t) / (2t); the lemma overallProgress_eq_round below proves
this rendering equal to round ((v : ℚ) / t * 100) for every t > 0 (the
server always reports total_angles = 4). -/
def overallProgress (verified_angles total_angles : Nat) : Nat :=
  (200 * verified_angles + total_angles) / (2 * total_angles)

/-- overallProgress including the null case of part_005 line 89. -/
def overallProgressOf : Option VerificationStatus → Nat
  | none => 0
  | some vs => overallProgress vs.verified_angles vs.total_angles

/-- The progress formula exactly as the spec words it: verifiedCount divided
by totalAngles times 100, with no rounding. -/
def overallProgressSpec (verified_angles total_angles : Nat) : ℚ :=
  (verified_angles : ℚ) / (total_angles : ℚ) * 100

/-- Text of the header status badge (part_005 lines 97-99). -/
def progressBadgeText (vs : Option VerificationStatus) : String :=
  toString (overallProgressOf vs) ++ "% Complete"

/-- Render condition of the Verification Complete badge and alert (part_005
lines 102 and 223): the status field equals complete. -/
def completionBadgeShown : Option VerificationStatus → Bool
  | none => false
  | some vs => vs.status == "complete"

/-- Outcome of the upload response: success, or failure carrying the optional
detail of the error payload and the generic error message property. -/
inductive UploadResponse where
  | ok
  | err (detail : Option String) (message : String)
deriving DecidableEq, Repr

/-- Observable outcome of one handleFileUpload run (part_005 lines 37-64):
the toast text, whether the upload succeeded, and whether a refresh
(fetchVerificationStatus) is triggered. -/
structure UploadOutcome where
  toastMsg : String
  success : Bool
  triggersRefresh : Bool
deriving DecidableEq, Repr

/-- handleFileUpload (part_005 lines 37-64): on success toasts and triggers a
refresh; on failure toasts Failed to upload angle image: followed by the
detail of the error payload (falling back to error.message), and does not
refresh.  It never writes verificationStatus itself. -/
def handleFileUpload (angle : String) (resp : UploadResponse) : UploadOutcome :=
  match resp with
  | .ok =>
      { toastMsg := angle ++ " image uploaded successfully",
        success := true, triggersRefresh := true }
  | .err detail message =>
      { toastMsg := "Failed to upload " ++ angle ++ " image: " ++ jsOr detail message,
        success := false, triggersRefresh := false }

/-! ## Client state machine for the verification view (part_005)

Every write to the cached verificationStatus in the source is the single
setVerificationStatus(response.data) in fetchVerificationStatus (line 24);
handleFileUpload only toggles isUploading/activeAngle and, on success,
invokes fetchVerificationStatus, which is a separate asynchronous completion
modelled as its own event. -/

/-- Completions of the asynchronous calls the component makes. -/
inductive ClientEvent where
  | refreshOk (data : VerificationStatus)
  | refreshErr
  | uploadOk (angle : String)
  | uploadErr (angle : String) (detail : Option String) (message : String)
deriving DecidableEq, Repr

/-- CarVerification component state (part_005 lines 15-18). -/
structure ClientState where
  verificationStatus : Option VerificationStatus
  isLoading : Bool
  isUploading : Bool
  activeAngle : Option String
deriving DecidableEq, Repr

/-- State update performed by each completion, read off the source:
refreshOk stores the server payload wholesale (line 24); refreshErr leaves
the cached status alone (lines 25-30); upload completions only clear the
uploading flags (lines 60-63). -/
def stepClient (st : ClientState) : ClientEvent → ClientState
  | .refreshOk d => { st with verificationStatus := some d, isLoading := false }
  | .refreshErr => { st with isLoading := false }
  | .uploadOk _ => { st with isUploading := false, activeAngle := none }
  | .uploadErr _ _ _ => { st with isUploading := false, activeAngle := none }

/-! ## Concrete sample data used by witnesses and counterexamples -/

/-- Sample front image file. -/
def dFront1 : DroppedFile := ⟨"front1.jpg", 1000, "image/jpeg"⟩

/-- Second sample front image file. -/
def dFront2 : DroppedFile := ⟨"front2.jpg", 2000, "image/jpeg"⟩

/-- Sample rear image file. -/
def dRear1 : DroppedFile := ⟨"rear1.jpg", 3000, "image/jpeg"⟩

/-- Sample back image file. -/
def dBack1 : DroppedFile := ⟨"back1.jpg", 4000, "image/jpeg"⟩

/-- Sample top image file. -/
def dTop1 : DroppedFile := ⟨"top1.jpg", 5000, "image/jpeg"⟩

/-- The queue state after add([f1@front, f2@front, f3@rear]) on an empty
queue: a drop of two files with category front selected, then a drop of one
file with category rear selected. -/
def threeFileState : UploadState :=
  onDrop (onDrop initialState "front" [dFront1, dFront2]) "rear" [dRear1]

/-- A queue covering all four required categories. -/
def coveredState : UploadState :=
  onDrop (onDrop (onDrop (onDrop initialState "front" [dFront1])
    "rear" [dRear1]) "back" [dBack1]) "top" [dTop1]

/-- Sample form fields. -/
def sampleFields : FormFields := ⟨"POL-1", "2025-01-01", "Chennai", "rear-ended"⟩

/-- A queue holding a single front image. -/
def oneFrontFiles : List StagedFile := (onDrop initialState "front" [dFront1]).files

/-- Twelve image files, the configured per-drop maximum of NewClaim.js. -/
def twelveImages : List DroppedFile := List.replicate 12 dFront1

/-- A verification payload with no verified angle. -/
def vsPrev : VerificationStatus := ⟨0, 4, none, "in_progress", []⟩

/-- The payload after the server verified one further angle. -/
def vsNext : VerificationStatus := ⟨1, 4, none, "in_progress", []⟩

/-! ## Helper lemmas -/

/-- Faithfulness of the integer rendering of overallProgress: for a positive
total it coincides with Math.round((v / t) * 100) as computed by the source,
where Math.round x = floor (x + 1/2) on nonnegative x. -/
lemma overallProgress_eq_round (v t : ℕ) (ht : 0 < t) :
    (overallProgress v t : ℤ) = round ((v : ℚ) / (t : ℚ) * 100) := by
  have ht' : (t : ℚ) ≠ 0 := Nat.cast_ne_zero.mpr ht.ne'
  rw [round_eq]
  have hx : (v : ℚ) / (t : ℚ) * 100 + 1 / 2
      = ((200 * v + t : ℕ) : ℚ) / ((2 * t : ℕ) : ℚ) := by
    push_cast
    field_simp
    ring
  rw [hx, Rat.floor_natCast_div_natCast]
  rfl

/-- When the total divides 100 the rounding is exact: progress is just the
verified count times the percentage step. -/
lemma overallProgress_exact (v t k : ℕ) (ht : 0 < t) (hk : 100 = t * k) :
    overallProgress v t = k * v := by
  unfold overallProgress
  have h200 : 200 * v + t = 2 * t * (k * v) + t := by
    have : (200 : ℕ) = 2 * (t * k) := by rw [← hk]
    calc 200 * v + t = 2 * (t * k) * v + t := by rw [← this]
    _ = 2 * t * (k * v) + t := by ring
  rw [h200, Nat.mul_add_div (by positivity), Nat.div_eq_of_lt (by omega)]
  omega

/-- Every file produced by stageFiles bears the selected category and the
MIME type of one of the dropped files. -/
lemma stageFiles_mem {c : String} {n : Nat} {ds : List DroppedFile}
    {f : StagedFile} (hf : f ∈ stageFiles c n ds) :
    f.category = c ∧ ∃ d ∈ ds, f.type = d.type := by
  induction ds generalizing n with
  | nil => simp [stageFiles] at hf
  | cons d ds ih =>
      rw [stageFiles] at hf
      rcases List.mem_cons.mp hf with h | h
      · subst h
        exact ⟨rfl, d, List.mem_cons_self _ _, rfl⟩
      · obtain ⟨hc, d', hd', ht⟩ := ih h
        exact ⟨hc, d', List.mem_cons_of_mem _ hd', ht⟩

/-- removeFile only drops entries: the surviving files were already queued. -/
lemma removeFile_subset {st : UploadState} {i : Nat} {f : StagedFile}
    (hf : f ∈ (removeFile st i).files) : f ∈ st.files := by
  simp only [removeFile] at hf
  have h1 : ((st.files.enum.filter (fun p => p.1 ≠ i)).map (fun p => p.2)).Sublist
      (st.files.enum.map (fun p => p.2)) :=
    (List.filter_sublist _).map _
  have h2 : st.files.enum.map (fun p : ℕ × StagedFile => p.2) = st.files := by
    simp
  rw [h2] at h1
  exact h1.mem hf

/-- updateFileCategory preserves everything but the category of the touched
index, whose new value is the supplied one. -/
lemma updateFileCategory_mem {st : UploadState} {i : Nat} {c : String}
    {f : StagedFile} (hf : f ∈ (updateFileCategory st i c).files) :
    ∃ g ∈ st.files, f.type = g.type ∧ (f.category = g.category ∨ f.category = c) := by
  simp only [updateFileCategory] at hf
  obtain ⟨p, hp, hpf⟩ := List.mem_map.mp hf
  have hpm : p.2 ∈ st.files := by
    have h2 : st.files.enum.map (fun q : ℕ × StagedFile => q.2) = st.files := by
      simp
    have := List.mem_map_of_mem (fun q : ℕ × StagedFile => q.2) hp
    rwa [h2] at this
  by_cases hcase : p.1 = i
  · rw [if_pos hcase] at hpf
    subst hpf
    exact ⟨p.2, hpm, rfl, Or.inr rfl⟩
  · rw [if_neg hcase] at hpf
    subst hpf
    exact ⟨p.2, hpm, rfl, Or.inl rfl⟩

/-- One queue operation: every file afterwards either was already queued
(with its MIME type intact, and its category intact unless this very event
recategorized it) or came in through a drop, bearing the selected category
of that drop and the MIME type of a dropped file. -/
lemma stepUpload_mem {st : UploadState} {e : UploadEvent} {f : StagedFile}
    (hf : f ∈ (stepUpload st e).files) :
    (∃ g ∈ st.files, f.type = g.type ∧
        (f.category = g.category ∨ ∃ i c, e = .setCategory i c ∧ f.category = c)) ∨
    (∃ c ds, e = .drop c ds ∧ f.category = c ∧ ∃ d ∈ ds, f.type = d.type) := by
  cases e with
  | drop c ds =>
      simp only [stepUpload, onDrop] at hf
      rcases List.mem_append.mp hf with h | h
      · exact Or.inl ⟨f, h, rfl, Or.inl rfl⟩
      · obtain ⟨hc, d, hd, ht⟩ := stageFiles_mem h
        exact Or.inr ⟨c, ds, rfl, hc, d, hd, ht⟩
  | remove i =>
      exact Or.inl ⟨f, removeFile_subset hf, rfl, Or.inl rfl⟩
  | setCategory i c =>
      obtain ⟨g, hg, ht, hc⟩ := updateFileCategory_mem hf
      exact Or.inl ⟨g, hg, ht, hc.imp id (fun h => ⟨i, c, rfl, h⟩)⟩

/-- Running accepted events from a queue of image files keeps every queued
file an image. -/
lemma foldl_images (maxF : ℕ) (events : List UploadEvent)
    (h : ∀ e ∈ events, dropOk maxF e = true) (st : UploadState)
    (hst : ∀ f ∈ st.files, isImageType f.type = true) :
    ∀ f ∈ (events.foldl stepUpload st).files, isImageType f.type = true := by
  induction events generalizing st with
  | nil => simp only [List.foldl_nil]; exact hst
  | cons e es ih =>
      simp only [List.foldl_cons]
      refine ih (fun e' he' => h e' (List.mem_cons_of_mem _ he')) _ ?_
      intro f hf
      rcases stepUpload_mem hf with ⟨g, hg, htype, _⟩ | ⟨c, ds, heq, _, d, hd, htype⟩
      · rw [htype]
        exact hst g hg
      · have hacc := h e (List.mem_cons_self _ _)
        rw [heq] at hacc
        simp only [dropOk, dropzoneAccepts, Bool.and_eq_true, List.all_eq_true] at hacc
        rw [htype]
        exact hacc.1 d hd

/-- Running events whose categories all come from the UI option lists keeps
every queued category inside the fixed enum. -/
lemma foldl_categories (events : List UploadEvent)
    (h : ∀ e ∈ events, eventCategoriesOk e = true) (st : UploadState)
    (hst : ∀ f ∈ st.files, f.category ∈ categoryValues) :
    ∀ f ∈ (events.foldl stepUpload st).files, f.category ∈ categoryValues := by
  induction events generalizing st with
  | nil => simp only [List.foldl_nil]; exact hst
  | cons e es ih =>
      simp only [List.foldl_cons]
      refine ih (fun e' he' => h e' (List.mem_cons_of_mem _ he')) _ ?_
      intro f hf
      have hok := h e (List.mem_cons_self _ _)
      rcases stepUpload_mem hf with ⟨g, hg, _, hcat | ⟨i, c, heq, hc⟩⟩ | ⟨c, ds, heq, hc, _⟩
      · rw [hcat]
        exact hst g hg
      · rw [heq] at hok
        simp only [eventCategoriesOk] at hok
        rw [hc]
        exact List.elem_iff.mp hok
      · rw [heq] at hok
        simp only [eventCategoriesOk] at hok
        rw [hc]
        exact List.elem_iff.mp hok

end Insurance

namespace Insurance

lemma mem_uploadedCategories {files : List StagedFile} {c : String}
    (h : ∃ f ∈ files, f.category = c) : c ∈ uploadedCategories files := by
  obtain ⟨f, hf, hfc⟩ := h
  exact List.mem_dedup.mpr (List.mem_map.mpr ⟨f, hf, hfc⟩)

lemma missingCategories_eq_nil {files : List StagedFile}
    (hcov : ∀ c ∈ requiredCategories, ∃ f ∈ files, f.category = c) :
    missingCategories files = [] := by
  rw [missingCategories, List.filter_eq_nil_iff]
  intro c hc
  have hmem : c ∈ uploadedCategories files := mem_uploadedCategories (hcov c hc)
  simp [hmem]

lemma getMissingCategories_eq_nil {files : List StagedFile}
    (hcov : ∀ c ∈ requiredCategories, ∃ f ∈ files, f.category = c) :
    getMissingCategories files = [] := by
  have hpos : ∀ c ∈ requiredCategories,
      (files.filter (fun f => f.category == c)).length ≠ 0 := by
    intro c hc
    obtain ⟨f, hf, hfc⟩ := hcov c hc
    have hmem : f ∈ files.filter (fun f => f.category == c) :=
      List.mem_filter.mpr ⟨hf, by simp [hfc]⟩
    have := List.length_pos.mpr (List.ne_nil_of_mem hmem)
    omega
  have h1 := hpos "front" (by simp [requiredCategories])
  have h2 := hpos "rear" (by simp [requiredCategories])
  have h3 := hpos "back" (by simp [requiredCategories])
  have h4 := hpos "top" (by simp [requiredCategories])
  simp [getMissingCategories, getCategoryStats, imageCategories, jsGet, h1, h2, h3, h4]

lemma validateImages_eq_none {files : List StagedFile}
    (hne : files ≠ [])
    (hmiss : missingCategories files = []) :
    validateImages files = none := by
  unfold validateImages
  rw [if_neg (by simp [hne]), hmiss]
  simp

end Insurance

namespace Insurance

/-- C1 (corrected): if any required category is missing, handleSubmit issues
no network call and surfaces a ValidationError; for a nonempty queue the
error names exactly the missing categories, while for the empty queue it is
the generic please-upload message. -/
theorem c1_theorem (fd : FormFields) (files : List StagedFile)
    (resp : ServerResponse) (hmiss : missingCategories files ≠ []) :
    (handleSubmit fd files resp).networkCalled = false ∧
    (handleSubmit fd files resp).errorMsg =
      some (if files.length = 0 then "Please upload at least one image"
            else "Missing required vehicle images: " ++
              String.intercalate ", " ((missingCategories files).map capitalizeWord)) := by
  have hv : validateImages files =
      some (if files.length = 0 then "Please upload at least one image"
            else "Missing required vehicle images: " ++
              String.intercalate ", " ((missingCategories files).map capitalizeWord)) := by
    unfold validateImages
    by_cases h : files.length = 0
    · simp [h]
    · have hlen : (missingCategories files).length > 0 :=
        List.length_pos.mpr hmiss
      simp [h, hlen]
  unfold handleSubmit
  rw [hv]
  exact ⟨rfl, rfl⟩

theorem c1_witness :
    missingCategories oneFrontFiles ≠ [] ∧
    ((handleSubmit sampleFields oneFrontFiles (.ok 7)).networkCalled = false ∧
     (handleSubmit sampleFields oneFrontFiles (.ok 7)).errorMsg =
       some (if oneFrontFiles.length = 0 then "Please upload at least one image"
             else "Missing required vehicle images: " ++
               String.intercalate ", "
                 ((missingCategories oneFrontFiles).map capitalizeWord))) :=
  ⟨by decide, c1_theorem sampleFields oneFrontFiles (.ok 7) (by decide)⟩

/-- C1 counterexample: the empty queue misses every required category, yet
the surfaced error is the generic message, not one naming the missing
categories. -/
theorem c1_counterexample :
    missingCategories [] = ["front", "rear", "back", "top"] ∧
    (handleSubmit sampleFields [] (.ok 7)).errorMsg =
      some "Please upload at least one image" ∧
    (handleSubmit sampleFields [] (.ok 7)).errorMsg ≠
      some ("Missing required vehicle images: " ++
        String.intercalate ", " ((missingCategories []).map capitalizeWord)) := by
  decide

/-- C2 (confirmed): when every required category is covered, both
missing-category computations are empty and handleSubmit proceeds to the
POST /claims network call carrying the form fields and all staged files. -/
theorem c2_theorem (fd : FormFields) (files : List StagedFile)
    (resp : ServerResponse)
    (hcov : ∀ c ∈ requiredCategories, ∃ f ∈ files, f.category = c) :
    missingCategories files = [] ∧
    getMissingCategories files = [] ∧
    (handleSubmit fd files resp).networkCalled = true ∧
    (handleSubmit fd files resp).sentFields = some fd ∧
    (handleSubmit fd files resp).sentImages = files := by
  have hne : files ≠ [] := by
    obtain ⟨f, hf, _⟩ := hcov "front" (by simp [requiredCategories])
    exact List.ne_nil_of_mem hf
  have hmiss := missingCategories_eq_nil hcov
  have hv := validateImages_eq_none hne hmiss
  refine ⟨hmiss, getMissingCategories_eq_nil hcov, ?_, ?_, ?_⟩ <;>
    · unfold handleSubmit
      rw [hv]
      cases resp <;> rfl

theorem c2_witness :
    missingCategories coveredState.files = [] ∧
    getMissingCategories coveredState.files = [] ∧
    (handleSubmit sampleFields coveredState.files (.ok 7)).networkCalled = true ∧
    (handleSubmit sampleFields coveredState.files (.ok 7)).sentFields = some sampleFields ∧
    (handleSubmit sampleFields coveredState.files (.ok 7)).sentImages = coveredState.files :=
  c2_theorem sampleFields coveredState.files (.ok 7) (by decide)

end Insurance

namespace Insurance

/-- C3 (corrected): on a server failure carrying a nonempty detail, the
staged queue is returned unchanged, the submission path surfaces the detail
verbatim, and the per-angle upload path surfaces it inside the prefixed
message Failed to upload angle image. -/
theorem c3_theorem (fd : FormFields) (files : List StagedFile)
    (d angle message : String) (hd : d ≠ "") (hne : files ≠ [])
    (hmiss : missingCategories files = []) :
    (handleSubmit fd files (.err (some d))).filesAfter = files ∧
    (handleSubmit fd files (.err (some d))).errorMsg = some d ∧
    (handleFileUpload angle (.err (some d) message)).toastMsg =
      "Failed to upload " ++ angle ++ " image: " ++ d := by
  have hv := validateImages_eq_none hne hmiss
  refine ⟨?_, ?_, ?_⟩
  · unfold handleSubmit
    rw [hv]
  · unfold handleSubmit
    rw [hv]
    simp [jsOr, hd]
  · simp [handleFileUpload, jsOr, hd]

theorem c3_witness :
    "Claim not found" ≠ "" ∧ coveredState.files ≠ [] ∧
    missingCategories coveredState.files = [] ∧
    ((handleSubmit sampleFields coveredState.files
        (.err (some "Claim not found"))).filesAfter = coveredState.files ∧
     (handleSubmit sampleFields coveredState.files
        (.err (some "Claim not found"))).errorMsg = some "Claim not found" ∧
     (handleFileUpload "front" (.err (some "Claim not found") "Request failed")).toastMsg =
       "Failed to upload " ++ "front" ++ " image: " ++ "Claim not found") :=
  ⟨by decide, by decide, by decide,
   c3_theorem sampleFields coveredState.files "Claim not found" "front"
     "Request failed" (by decide) (by decide) (by decide)⟩

/-- C3 counterexample: the per-angle upload failure toast is not the server
detail verbatim but the prefixed message. -/
theorem c3_counterexample :
    (handleFileUpload "front" (.err (some "Claim not found") "Request failed")).toastMsg
      ≠ "Claim not found" := by
  decide

end Insurance

namespace Insurance

/-- C4 (corrected): when a refresh stores a server payload reporting one more
verified angle out of the same total, and the total divides 100, the
displayed overallProgress strictly increases by exactly 100 / total. -/
theorem c4_theorem (st : ClientState) (prev next : VerificationStatus)
    (hst : st.verificationStatus = some prev)
    (ht : 0 < next.total_angles)
    (hdvd : next.total_angles ∣ 100)
    (htot : prev.total_angles = next.total_angles)
    (hinc : next.verified_angles = prev.verified_angles + 1) :
    overallProgressOf (stepClient st (.refreshOk next)).verificationStatus =
      overallProgressOf st.verificationStatus + 100 / next.total_angles ∧
    overallProgressOf st.verificationStatus <
      overallProgressOf (stepClient st (.refreshOk next)).verificationStatus := by
  obtain ⟨k, hk⟩ := hdvd
  have hk' : 100 = next.total_angles * k := hk
  have hkpos : 0 < k := by
    rcases Nat.eq_zero_or_pos k with h | h
    · rw [h, Nat.mul_zero] at hk'
      omega
    · exact h
  have hprev := overallProgress_exact prev.verified_angles next.total_angles k ht hk'
  have hnext := overallProgress_exact next.verified_angles next.total_angles k ht hk'
  have hdiv : 100 / next.total_angles = k := by
    rw [hk']
    exact Nat.mul_div_cancel_left k ht
  simp only [stepClient, overallProgressOf, hst, hdiv]
  rw [htot, hnext, hprev, hinc]
  constructor
  · ring
  · calc k * prev.verified_angles < k * prev.verified_angles + k := by omega
    _ = k * (prev.verified_angles + 1) := by ring

theorem c4_witness :
    (⟨some vsPrev, false, false, none⟩ : ClientState).verificationStatus = some vsPrev ∧
    0 < vsNext.total_angles ∧ vsNext.total_angles ∣ 100 ∧
    vsPrev.total_angles = vsNext.total_angles ∧
    vsNext.verified_angles = vsPrev.verified_angles + 1 ∧
    (overallProgressOf (stepClient ⟨some vsPrev, false, false, none⟩
        (.refreshOk vsNext)).verificationStatus =
      overallProgressOf (⟨some vsPrev, false, false, none⟩ : ClientState).verificationStatus +
        100 / vsNext.total_angles ∧
     overallProgressOf (⟨some vsPrev, false, false, none⟩ : ClientState).verificationStatus <
       overallProgressOf (stepClient ⟨some vsPrev, false, false, none⟩
         (.refreshOk vsNext)).verificationStatus) :=
  ⟨rfl, by decide, by decide, by decide, by decide,
   c4_theorem ⟨some vsPrev, false, false, none⟩ vsPrev vsNext rfl
     (by decide) (by decide) (by decide) (by decide)⟩

/-- C4 counterexample: with 3 angles the spec formula increases by 100/3 on
one further verified angle, but the code rounds, so its increase is 33, not
100 divided by the number of angles. -/
theorem c4_counterexample :
    overallProgressSpec 1 3 - overallProgressSpec 0 3 = 100 / 3 ∧
    overallProgress 1 3 = 33 ∧ overallProgress 0 3 = 0 ∧
    (overallProgress 1 3 : ℚ) - (overallProgress 0 3 : ℚ) ≠ 100 / 3 := by
  refine ⟨by norm_num [overallProgressSpec], by decide, by decide, ?_⟩
  norm_num [overallProgress]

/-- C5 (corrected): two of four verified angles display as 50 percent with
the 50% Complete badge; the completion badge is driven by the status field
alone, shown exactly when it equals complete. -/
theorem c5_theorem :
    overallProgressOf (some ⟨2, 4, none, "in_progress", []⟩) = 50 ∧
    progressBadgeText (some ⟨2, 4, none, "in_progress", []⟩) = "50% Complete" ∧
    completionBadgeShown (some ⟨2, 4, none, "in_progress", []⟩) = false ∧
    completionBadgeShown (some ⟨2, 4, none, "complete", []⟩) = true ∧
    overallProgressOf (some ⟨4, 4, none, "complete", []⟩) = 100 := by
  decide

/-- C5 counterexample: the completion badge follows status, not
overallProgress: it can be shown at 50 percent and absent at 100 percent. -/
theorem c5_counterexample :
    (overallProgressOf (some ⟨2, 4, none, "complete", []⟩) = 50 ∧
     completionBadgeShown (some ⟨2, 4, none, "complete", []⟩) = true) ∧
    (overallProgressOf (some ⟨4, 4, none, "uploaded", []⟩) = 100 ∧
     completionBadgeShown (some ⟨4, 4, none, "uploaded", []⟩) = false) := by
  decide

/-- C6 (corrected): after adding two front files and one rear file the
category stats object maps front to 2 and rear to 1, and also carries
explicit zero entries for back and top. -/
theorem c6_theorem :
    getCategoryStats threeFileState.files =
      [("front", 2), ("rear", 1), ("back", 0), ("top", 0)] := by
  decide

/-- C6 counterexample: the stats object is not the two-entry object the claim
states, because the uncovered categories are present with count 0. -/
theorem c6_counterexample :
    getCategoryStats threeFileState.files ≠ [("front", 2), ("rear", 1)] := by
  decide

/-- C7 (code bug): removing the first front file updates the coverage counts
to front 1 and rear 1, but the object URL allocated for its preview is still
allocated even though no staged file references it: removeFile never calls
URL.revokeObjectURL, so the preview resource is not released. -/
theorem c7_theorem :
    getCategoryStats (removeFile threeFileState 0).files =
      [("front", 1), ("rear", 1), ("back", 0), ("top", 0)] ∧
    (threeFileState.files.get? 0).map (fun f => f.preview) = some (mkPreview 0) ∧
    mkPreview 0 ∈ (removeFile threeFileState 0).allocatedPreviews ∧
    (∀ f ∈ (removeFile threeFileState 0).files, f.preview ≠ mkPreview 0) := by
  decide

end Insurance

namespace Insurance

/-- C8 (corrected): over any sequence of queue operations whose drops carry
only dropzone-accepted files (image MIME types, at most 12 per drop event),
the queue never contains a non-image file. -/
theorem c8_theorem (events : List UploadEvent)
    (h : ∀ e ∈ events, dropOk 12 e = true) :
    ∀ f ∈ (runUpload events).files, isImageType f.type = true := by
  unfold runUpload
  exact foldl_images 12 events h initialState (by simp [initialState])

theorem c8_witness :
    (∀ e ∈ [UploadEvent.drop "front" [dFront1]], dropOk 12 e = true) ∧
    (∀ f ∈ (runUpload [UploadEvent.drop "front" [dFront1]]).files,
        isImageType f.type = true) :=
  ⟨by decide, c8_theorem [UploadEvent.drop "front" [dFront1]] (by decide)⟩

/-- C8 counterexample: the per-drop limit does not bound the cumulative
queue: two drops of twelve accepted images each leave twenty-four staged
files, exceeding the configured maximum of twelve. -/
theorem c8_counterexample :
    (∀ e ∈ [UploadEvent.drop "front" twelveImages,
            UploadEvent.drop "front" twelveImages], dropOk 12 e = true) ∧
    (runUpload [UploadEvent.drop "front" twelveImages,
                UploadEvent.drop "front" twelveImages]).files.length = 24 ∧
    ¬ (runUpload [UploadEvent.drop "front" twelveImages,
                  UploadEvent.drop "front" twelveImages]).files.length ≤ 12 := by
  decide

/-- C9 (confirmed): all queue operations draw categories from the fixed
imageCategories option lists, so every reachable queue state holds only
files whose category is one of front, rear, back, top. -/
theorem c9_theorem (events : List UploadEvent)
    (h : ∀ e ∈ events, eventCategoriesOk e = true) :
    ∀ f ∈ (runUpload events).files, f.category ∈ categoryValues := by
  unfold runUpload
  exact foldl_categories events h initialState (by simp [initialState])

theorem c9_witness :
    (∀ e ∈ [UploadEvent.drop "front" [dFront1], UploadEvent.setCategory 0 "top"],
        eventCategoriesOk e = true) ∧
    (∀ f ∈ (runUpload [UploadEvent.drop "front" [dFront1],
        UploadEvent.setCategory 0 "top"]).files, f.category ∈ categoryValues) :=
  ⟨by decide,
   c9_theorem [UploadEvent.drop "front" [dFront1], UploadEvent.setCategory 0 "top"]
     (by decide)⟩

/-- C10 (confirmed): the cached verification record changes only at a
refresh completion, which stores the server payload wholesale; upload
completions, successful or not, never touch it. -/
theorem c10_theorem (st : ClientState) (e : ClientEvent)
    (hch : (stepClient st e).verificationStatus ≠ st.verificationStatus) :
    ∃ d, e = ClientEvent.refreshOk d ∧
      (stepClient st e).verificationStatus = some d := by
  cases e with
  | refreshOk d => exact ⟨d, rfl, rfl⟩
  | refreshErr => exact absurd rfl hch
  | uploadOk a => exact absurd rfl hch
  | uploadErr a d m => exact absurd rfl hch

theorem c10_witness :
    (stepClient ⟨none, true, false, none⟩
        (.refreshOk vsNext)).verificationStatus ≠
      (⟨none, true, false, none⟩ : ClientState).verificationStatus ∧
    ∃ d, ClientEvent.refreshOk vsNext = ClientEvent.refreshOk d ∧
      (stepClient ⟨none, true, false, none⟩
        (.refreshOk vsNext)).verificationStatus = some d :=
  ⟨by decide, c10_theorem ⟨none, true, false, none⟩ (.refreshOk vsNext) (by decide)⟩

end Insurance
